import Mathlib

/-!
Verification of the asynchronous task primitive (GTask) and the
errno-to-GIOErrorEnum translation of this repository.

The task implementation file (gtask.c) is not part of the source tree
here — only its test surface (gio/tests/task.c) is — so the task data
model and operations below are modelled from the specification's data
model (§3), terminal-return discipline (§4.2), dispatch (§4.3),
cancellation integration (§4.4), propagation (§4.5) and worker pool
(§4.6).  The error translation (gio/gioerror.c) is embedded directly
from the source.
-/

set_option maxHeartbeats 1000000

namespace GlibTask

/-- Modelled from the spec: the error-kind taxonomy (§6, §7) consumed by the
task core, since the error-domain headers are not in the source tree.
`cancelled` and `failed`/`unknown` are the kinds the core requires; all
others are pass-through. -/
inductive ErrorKind where
  | cancelled
  | failed
  | unknown
  | other (code : Nat)
deriving DecidableEq, Repr

/-- Modelled from the spec: the sum-typed result slot of a Task (§3, §9):
`{Pending, Value(boxed), Int(i64), Pointer(opaque), Error(kind, msg)}`.
Pointers and boxed values are identified by opaque numeric handles; the
registered free-function is tracked separately in the Task record. -/
inductive TaskResult where
  | pending
  | rBoolean (b : Bool)
  | rInt (i : Int)
  | rPointer (p : Nat)
  | rValue (v : Nat)
  | rError (kind : ErrorKind) (msg : String)
deriving DecidableEq, Repr

/-- The level of a diagnostic emitted on the logging channel (§7). -/
inductive LogLevel where
  | critical
  | debug
deriving DecidableEq, Repr

/-- Modelled from the spec: the Task record (§3), standing in for the GTask
struct of the missing gtask.c.  Opaque pointers (source object, source tag)
are numeric handles; the callback is tracked as present/absent plus an
`callback_invoked` observation flag; `result_destroy` records that a
destructor is registered for the stored pointer/value result and
`destroy_count` counts how many times that destructor has run. -/
structure Task where
  source_object : Option Nat := none
  source_tag : Option Nat := none
  name : Option String := none
  priority : Int := 0
  callback : Bool := false
  check_cancellable : Bool := true
  return_on_cancel : Bool := false
  result : TaskResult := TaskResult.pending
  ever_returned : Bool := false
  thread_cancelled : Bool := false
  synchronous : Bool := false
  completed : Bool := false
  completed_notified : Bool := false
  callback_invoked : Bool := false
  result_destroy : Bool := false
  destroy_count : Nat := 0
  result_taken : Bool := false
  dispatch_scheduled : Bool := false
  finalized : Bool := false
deriving DecidableEq, Repr

/-- Modelled from the spec: the common terminal operation behind every
`g_task_return_*` call (§4.2, §4.4, §9).  A first terminal call sets
`ever_returned`, stores the result (registering `destroy` for
pointer/value results) and schedules dispatch unless the Task is
synchronous.  A second terminal call is a contract violation diagnosed at
critical level and does not replace the stored result — except when
`thread_cancelled` fired (return-on-cancel already completed the Task), in
which case the worker's late return is dropped without a diagnostic. -/
def g_task_return (t : Task) (r : TaskResult) (destroy : Bool) :
    Task × Option LogLevel :=
  if t.ever_returned then
    if t.thread_cancelled then (t, none)
    else (t, some LogLevel.critical)
  else
    ({ t with ever_returned := true, result := r, result_destroy := destroy,
              dispatch_scheduled := !t.synchronous }, none)

/-- Modelled from the spec: `return_boolean` (§4.2). -/
def g_task_return_boolean (t : Task) (b : Bool) : Task × Option LogLevel :=
  g_task_return t (TaskResult.rBoolean b) false

/-- Modelled from the spec: `return_int` (§4.2). -/
def g_task_return_int (t : Task) (i : Int) : Task × Option LogLevel :=
  g_task_return t (TaskResult.rInt i) false

/-- Modelled from the spec: `return_pointer(ptr, free_fn)` (§4.2); `destroy`
records whether a free-function was supplied. -/
def g_task_return_pointer (t : Task) (p : Nat) (destroy : Bool) :
    Task × Option LogLevel :=
  g_task_return t (TaskResult.rPointer p) destroy

/-- Modelled from the spec: `return_error(kind, message)` (§4.2). -/
def g_task_return_error (t : Task) (k : ErrorKind) (msg : String) :
    Task × Option LogLevel :=
  g_task_return t (TaskResult.rError k msg) false

/-- Modelled from the spec: the cancellation observer registered on the
bound cancellable (§4.4), standing in for the missing gtask.c handler.
It does nothing unless `return_on_cancel` is true and the handler has not
already fired; otherwise it test-and-sets `thread_cancelled`, flips
`return_on_cancel` to false to prevent a second firing, stores a
cancelled-error result through the single-terminal discipline and
schedules dispatch. -/
def task_cancellable_cancelled (t : Task) : Task :=
  if !t.return_on_cancel then t
  else if t.thread_cancelled then t
  else
    let t1 : Task := { t with thread_cancelled := true, return_on_cancel := false }
    (g_task_return t1 (TaskResult.rError ErrorKind.cancelled "Task cancelled") false).1

/-- Modelled from the spec: `set_return_on_cancel(bool) → bool` (§4.1,
invariant 6), standing in for the missing gtask.c.  `cancelled` is the
current state of the bound cancellation token.  The call returns true iff
the transition took effect: a request to re-enable return-on-cancel after
the token was cancelled while it was disabled returns false and leaves the
state unchanged. -/
def g_task_set_return_on_cancel (t : Task) (cancelled : Bool) (b : Bool) :
    Task × Bool :=
  if cancelled && b && !t.return_on_cancel then (t, false)
  else ({ t with return_on_cancel := b }, true)

/-- The outcome of a propagation: a value or an error. -/
inductive Propagated where
  | ok (r : TaskResult)
  | err (kind : ErrorKind) (msg : String)
deriving DecidableEq, Repr

/-- Modelled from the spec: the common extraction operation behind
`propagate_boolean` / `propagate_int` / `propagate_pointer` /
`propagate_value` (§4.5), standing in for the missing gtask.c.
`cancelled` is the current state of the bound token.  If
`check_cancellable` is true and the token is cancelled, the cancelled
error kind is returned regardless of the stored result and the registered
destructor stays in place (the result is freed at finalization, not
leaked or transferred).  Otherwise the stored result is returned:
ownership transfers to the caller and the destructor is deregistered. -/
def g_task_propagate (t : Task) (cancelled : Bool) : Task × Propagated :=
  if t.check_cancellable && cancelled then
    (t, Propagated.err ErrorKind.cancelled "Task cancelled")
  else
    match t.result with
    | TaskResult.rError k m => ({ t with result_taken := true }, Propagated.err k m)
    | r => ({ t with result_taken := true, result_destroy := false },
            Propagated.ok r)

/-- The propagation outcome a stored result yields when nothing overrides
it: errors surface as errors, everything else as a value. -/
def outcomeOf : TaskResult → Propagated
  | TaskResult.rError k m => Propagated.err k m
  | r => Propagated.ok r

/-- The content of the finalized-without-returning diagnostic (§7): its
level together with the source object, source tag and name it reports. -/
structure FinalizeDiag where
  level : LogLevel
  source_object : Option Nat
  source_tag : Option Nat
  name : Option String
deriving DecidableEq, Repr

/-- Modelled from the spec: Task finalization (§3 invariants 2 and
lifecycle, §4.5, §7), standing in for the missing gtask.c.  A Task
finalized without any terminal call emits a critical diagnostic if a
callback was attached and a debug diagnostic otherwise, naming the source
object, source tag and name; finalization itself proceeds either way.  A
still-registered result destructor runs exactly once, on the stored
result. -/
def g_task_finalize (t : Task) : Task × Option FinalizeDiag :=
  let diag : Option FinalizeDiag :=
    if !t.ever_returned then
      some { level := if t.callback then LogLevel.critical else LogLevel.debug,
             source_object := t.source_object,
             source_tag := t.source_tag,
             name := t.name }
    else none
  let t1 : Task :=
    if t.result_destroy then
      { t with destroy_count := t.destroy_count + 1, result_destroy := false,
               finalized := true }
    else { t with finalized := true }
  (t1, diag)

/-- Modelled from the spec: `run_in_thread_sync(task, worker_fn)` (§4.6),
standing in for the missing gtask.c.  In this sequential embedding the
blocking wait is represented by running the worker to completion before
the call returns.  The Task is marked synchronous, which suppresses
callback dispatch, and when the call returns `completed` has been set and
its property-change notification emitted. -/
def g_task_run_in_thread_sync (t : Task) (worker : Task → Task) : Task :=
  let t1 := worker { t with synchronous := true }
  { t1 with completed := true, completed_notified := true }

/-- Modelled from the spec: the worker function of the
`test_run_in_thread_sync` scenario, which records that it ran and makes a
single terminal `return_int` call. -/
def workerReturnInt (m : Int) (t : Task) : Task :=
  (g_task_return t (TaskResult.rInt m) false).1

/-! ### Main-loop dispatch model (§4.2, §4.3)

A single-task view of the captured context: the queue holds the idle
dispatch source scheduled by the terminal call, and the deferred
`completed` property-change notification that dispatch enqueues for the
following loop turn. -/

/-- An item pending on the captured context: the dispatch idle source, or
the deferred `completed` notification (§4.3 step 2). -/
inductive LoopItem where
  | dispatch
  | notifyCompleted
deriving DecidableEq, Repr

/-- Modelled from the spec: a Task together with its captured context's
pending queue and the references keeping the Task alive — the producer's
reference and the reference held by the scheduled dispatch source
(§4.3 step 3, §3 lifecycle). -/
structure LoopState where
  task : Task
  queue : List LoopItem := []
  producer_ref : Bool := true
  dispatch_ref : Bool := false
deriving DecidableEq, Repr

/-- The Task is alive while any reference remains. -/
def taskAlive (s : LoopState) : Bool := s.producer_ref || s.dispatch_ref

/-- A fresh loop state for a newly constructed Task. -/
def LoopState.init (t : Task) : LoopState := { task := t }

/-- Modelled from the spec: a terminal call made through the context model
(§4.2).  Whether it is made from the same loop iteration in which the
Task was created, from an idle callback, or from outside any main loop,
dispatch is never performed synchronously: an idle source is attached to
the captured context (taking a reference on the Task) and the callback is
left to a later loop iteration. -/
def loopReturn (s : LoopState) (r : TaskResult) : LoopState :=
  { s with task := (g_task_return s.task r false).1,
           queue := s.queue ++ [LoopItem.dispatch],
           dispatch_ref := true }

/-- Modelled from the spec: one iteration of the captured context's loop
(§4.3).  Firing the dispatch source invokes the callback (which still
observes `completed = false`), then flips `completed` and defers its
property-change notification to the next loop turn; firing the
notification item emits the notification and drops the dispatch source's
reference on the Task. -/
def loopStep (s : LoopState) : LoopState :=
  match s.queue with
  | [] => s
  | LoopItem.dispatch :: rest =>
      { s with queue := rest ++ [LoopItem.notifyCompleted],
               task := { s.task with
                           callback_invoked := s.task.callback_invoked || s.task.callback,
                           completed := true } }
  | LoopItem.notifyCompleted :: rest =>
      { s with queue := rest,
               task := { s.task with completed_notified := true },
               dispatch_ref := false }

/-- Modelled from the spec: the producer-side shortcut exercised by
`test_return_from_same_iteration` and `test_return_from_toplevel` — the
terminal call followed by the producer dropping its own reference, all
before control returns to the event loop. -/
def sameIterationReturn (s : LoopState) (r : TaskResult) : LoopState :=
  let s1 := loopReturn s r
  { s1 with producer_ref := false }

/-! ### Priority-ordered dispatch on one context (§4.3, §5)

Dispatch sources are attached to the captured context at the Task's
priority; within one context, callbacks fire in priority order (lower
value = more urgent), ties broken by arrival order. -/

/-- A dispatch source pending on a context: the id of the Task it will
complete and the priority it was attached at. -/
structure PendingDispatch where
  taskId : Nat
  priority : Int
deriving DecidableEq, Repr

/-- The dispatch ordering relation: a source fires no later than another
iff its priority value is no greater (lower value = more urgent). -/
def prioRel (a b : PendingDispatch) : Prop := a.priority ≤ b.priority

instance : DecidableRel prioRel := fun a b =>
  inferInstanceAs (Decidable (a.priority ≤ b.priority))

instance : IsTotal PendingDispatch prioRel :=
  ⟨fun a b => Int.le_total a.priority b.priority⟩

instance : IsTrans PendingDispatch prioRel :=
  ⟨fun _ _ _ h1 h2 => le_trans h1 h2⟩

/-- Modelled from the spec: the order in which pending dispatch sources on
one context fire (§5): priority order, equal priorities in FIFO arrival
order — a stable sort of the arrival queue by priority. -/
def dispatchOrder (q : List PendingDispatch) : List PendingDispatch :=
  q.insertionSort prioRel

/-- Modelled from the spec: the observation made by `priority_callback` —
each callback, in firing order, records the value of an incremented
shared counter.  Returns `(taskId, counter)` pairs. -/
def callbackCounters (q : List PendingDispatch) : List (Nat × Nat) :=
  (dispatchOrder q).enum.map (fun p => (p.2.taskId, p.1 + 1))

/-- The glib priority constants used by the test scenario. -/
def G_PRIORITY_HIGH : Int := -100

/-- Default priority. -/
def G_PRIORITY_DEFAULT : Int := 0

/-- Low priority. -/
def G_PRIORITY_LOW : Int := 300

end GlibTask

namespace GioError

/-! ### gio/gioerror.c — errno and GFileError translation

Embedded from the source.  `GFileError` values are modelled as integers
(the C enum, in declaration order), so that the out-of-range default
branch of `g_io_error_from_file_error` is expressible.  The errno
constants are the Linux values; `#ifdef` guards in the source are
resolved for that platform (`EOPNOTSUPP == ENOTSUP` and
`EAGAIN == EWOULDBLOCK`, so those two cases are compiled out, while
`ENOTEMPTY != EEXIST` keeps the `ENOTEMPTY` case). -/

/-- The GIOErrorEnum values mentioned by gioerror.c. -/
inductive GIOErrorEnum where
  | G_IO_ERROR_FAILED
  | G_IO_ERROR_NOT_FOUND
  | G_IO_ERROR_EXISTS
  | G_IO_ERROR_IS_DIRECTORY
  | G_IO_ERROR_NOT_DIRECTORY
  | G_IO_ERROR_NOT_EMPTY
  | G_IO_ERROR_NOT_REGULAR_FILE
  | G_IO_ERROR_FILENAME_TOO_LONG
  | G_IO_ERROR_TOO_MANY_LINKS
  | G_IO_ERROR_NO_SPACE
  | G_IO_ERROR_INVALID_ARGUMENT
  | G_IO_ERROR_PERMISSION_DENIED
  | G_IO_ERROR_NOT_SUPPORTED
  | G_IO_ERROR_CANCELLED
  | G_IO_ERROR_READ_ONLY
  | G_IO_ERROR_TIMED_OUT
  | G_IO_ERROR_BUSY
  | G_IO_ERROR_WOULD_BLOCK
  | G_IO_ERROR_TOO_MANY_OPEN_FILES
  | G_IO_ERROR_ADDRESS_IN_USE
  | G_IO_ERROR_INVALID_DATA
  | G_IO_ERROR_HOST_UNREACHABLE
  | G_IO_ERROR_NETWORK_UNREACHABLE
  | G_IO_ERROR_CONNECTION_REFUSED
  | G_IO_ERROR_BROKEN_PIPE
  | G_IO_ERROR_NOT_CONNECTED
  | G_IO_ERROR_DESTINATION_UNSET
  | G_IO_ERROR_MESSAGE_TOO_LARGE
  | G_IO_ERROR_NO_SUCH_DEVICE
deriving DecidableEq, Repr

/-- `G_IO_ERROR_CONNECTION_CLOSED` is defined as an alias of
`G_IO_ERROR_BROKEN_PIPE` in the gio headers. -/
def GIOErrorEnum.G_IO_ERROR_CONNECTION_CLOSED : GIOErrorEnum :=
  GIOErrorEnum.G_IO_ERROR_BROKEN_PIPE

/-- GFileError enum values (declaration order of the glib enum). -/
def G_FILE_ERROR_EXIST : Int := 0

/-- GFileError: EISDIR. -/
def G_FILE_ERROR_ISDIR : Int := 1

/-- GFileError: EACCES. -/
def G_FILE_ERROR_ACCES : Int := 2

/-- GFileError: ENAMETOOLONG. -/
def G_FILE_ERROR_NAMETOOLONG : Int := 3

/-- GFileError: ENOENT. -/
def G_FILE_ERROR_NOENT : Int := 4

/-- GFileError: ENOTDIR. -/
def G_FILE_ERROR_NOTDIR : Int := 5

/-- GFileError: ENXIO. -/
def G_FILE_ERROR_NXIO : Int := 6

/-- GFileError: ENODEV. -/
def G_FILE_ERROR_NODEV : Int := 7

/-- GFileError: EROFS. -/
def G_FILE_ERROR_ROFS : Int := 8

/-- GFileError: ETXTBSY. -/
def G_FILE_ERROR_TXTBSY : Int := 9

/-- GFileError: EFAULT. -/
def G_FILE_ERROR_FAULT : Int := 10

/-- GFileError: ELOOP. -/
def G_FILE_ERROR_LOOP : Int := 11

/-- GFileError: ENOSPC. -/
def G_FILE_ERROR_NOSPC : Int := 12

/-- GFileError: ENOMEM. -/
def G_FILE_ERROR_NOMEM : Int := 13

/-- GFileError: EMFILE. -/
def G_FILE_ERROR_MFILE : Int := 14

/-- GFileError: ENFILE. -/
def G_FILE_ERROR_NFILE : Int := 15

/-- GFileError: EBADF. -/
def G_FILE_ERROR_BADF : Int := 16

/-- GFileError: EINVAL. -/
def G_FILE_ERROR_INVAL : Int := 17

/-- GFileError: EPIPE. -/
def G_FILE_ERROR_PIPE : Int := 18

/-- GFileError: EAGAIN. -/
def G_FILE_ERROR_AGAIN : Int := 19

/-- GFileError: EINTR. -/
def G_FILE_ERROR_INTR : Int := 20

/-- GFileError: EIO. -/
def G_FILE_ERROR_IO : Int := 21

/-- GFileError: EPERM. -/
def G_FILE_ERROR_PERM : Int := 22

/-- GFileError: ENOSYS. -/
def G_FILE_ERROR_NOSYS : Int := 23

/-- GFileError: catch-all failure. -/
def G_FILE_ERROR_FAILED : Int := 24

/-- `g_io_error_from_file_error` (gioerror.c lines 265–317): the switch
over GFileError, whose default branch (`g_return_val_if_reached`) yields
`G_IO_ERROR_FAILED` for any out-of-range value. -/
def g_io_error_from_file_error (file_error : Int) : GIOErrorEnum :=
  if file_error = G_FILE_ERROR_EXIST then GIOErrorEnum.G_IO_ERROR_EXISTS
  else if file_error = G_FILE_ERROR_ISDIR then GIOErrorEnum.G_IO_ERROR_IS_DIRECTORY
  else if file_error = G_FILE_ERROR_ACCES then GIOErrorEnum.G_IO_ERROR_PERMISSION_DENIED
  else if file_error = G_FILE_ERROR_NAMETOOLONG then GIOErrorEnum.G_IO_ERROR_FILENAME_TOO_LONG
  else if file_error = G_FILE_ERROR_NOENT then GIOErrorEnum.G_IO_ERROR_NOT_FOUND
  else if file_error = G_FILE_ERROR_NOTDIR then GIOErrorEnum.G_IO_ERROR_NOT_DIRECTORY
  else if file_error = G_FILE_ERROR_NXIO then GIOErrorEnum.G_IO_ERROR_NOT_REGULAR_FILE
  else if file_error = G_FILE_ERROR_NODEV then GIOErrorEnum.G_IO_ERROR_NO_SUCH_DEVICE
  else if file_error = G_FILE_ERROR_ROFS then GIOErrorEnum.G_IO_ERROR_READ_ONLY
  else if file_error = G_FILE_ERROR_TXTBSY then GIOErrorEnum.G_IO_ERROR_BUSY
  else if file_error = G_FILE_ERROR_LOOP then GIOErrorEnum.G_IO_ERROR_TOO_MANY_LINKS
  else if file_error = G_FILE_ERROR_NOSPC then GIOErrorEnum.G_IO_ERROR_NO_SPACE
  else if file_error = G_FILE_ERROR_NOMEM then GIOErrorEnum.G_IO_ERROR_NO_SPACE
  else if file_error = G_FILE_ERROR_MFILE then GIOErrorEnum.G_IO_ERROR_TOO_MANY_OPEN_FILES
  else if file_error = G_FILE_ERROR_NFILE then GIOErrorEnum.G_IO_ERROR_TOO_MANY_OPEN_FILES
  else if file_error = G_FILE_ERROR_INVAL then GIOErrorEnum.G_IO_ERROR_INVALID_ARGUMENT
  else if file_error = G_FILE_ERROR_PIPE then GIOErrorEnum.G_IO_ERROR_BROKEN_PIPE
  else if file_error = G_FILE_ERROR_AGAIN then GIOErrorEnum.G_IO_ERROR_WOULD_BLOCK
  else if file_error = G_FILE_ERROR_PERM then GIOErrorEnum.G_IO_ERROR_PERMISSION_DENIED
  else if file_error = G_FILE_ERROR_NOSYS then GIOErrorEnum.G_IO_ERROR_NOT_SUPPORTED
  else if file_error = G_FILE_ERROR_BADF then GIOErrorEnum.G_IO_ERROR_FAILED
  else if file_error = G_FILE_ERROR_FAILED then GIOErrorEnum.G_IO_ERROR_FAILED
  else if file_error = G_FILE_ERROR_FAULT then GIOErrorEnum.G_IO_ERROR_FAILED
  else if file_error = G_FILE_ERROR_INTR then GIOErrorEnum.G_IO_ERROR_FAILED
  else if file_error = G_FILE_ERROR_IO then GIOErrorEnum.G_IO_ERROR_FAILED
  else GIOErrorEnum.G_IO_ERROR_FAILED

/-- Linux errno: EMLINK. -/
def EMLINK : Int := 31

/-- Linux errno: ENOMSG. -/
def ENOMSG : Int := 42

/-- Linux errno: ENODATA. -/
def ENODATA : Int := 61

/-- Linux errno: EBADMSG. -/
def EBADMSG : Int := 74

/-- Linux errno: ECANCELED. -/
def ECANCELED : Int := 125

/-- Linux errno: ENOTEMPTY (distinct from EEXIST = 17 on Linux). -/
def ENOTEMPTY : Int := 39

/-- Linux errno: ENOTSUP (equal to EOPNOTSUPP on Linux). -/
def ENOTSUP : Int := 95

/-- Linux errno: EPROTONOSUPPORT. -/
def EPROTONOSUPPORT : Int := 93

/-- Linux errno: ESOCKTNOSUPPORT. -/
def ESOCKTNOSUPPORT : Int := 94

/-- Linux errno: EPFNOSUPPORT. -/
def EPFNOSUPPORT : Int := 96

/-- Linux errno: EAFNOSUPPORT. -/
def EAFNOSUPPORT : Int := 97

/-- Linux errno: ETIMEDOUT. -/
def ETIMEDOUT : Int := 110

/-- Linux errno: EBUSY. -/
def EBUSY : Int := 16

/-- Linux errno: EWOULDBLOCK (equal to EAGAIN on Linux). -/
def EWOULDBLOCK : Int := 11

/-- Linux errno: EADDRINUSE. -/
def EADDRINUSE : Int := 98

/-- Linux errno: EHOSTUNREACH. -/
def EHOSTUNREACH : Int := 113

/-- Linux errno: ENETUNREACH. -/
def ENETUNREACH : Int := 101

/-- Linux errno: ENETDOWN. -/
def ENETDOWN : Int := 100

/-- Linux errno: ECONNREFUSED. -/
def ECONNREFUSED : Int := 111

/-- Linux errno: ECONNRESET. -/
def ECONNRESET : Int := 104

/-- Linux errno: ENOTCONN. -/
def ENOTCONN : Int := 107

/-- Linux errno: EDESTADDRREQ. -/
def EDESTADDRREQ : Int := 89

/-- Linux errno: EMSGSIZE. -/
def EMSGSIZE : Int := 90

/-- Linux errno: ENOTSOCK. -/
def ENOTSOCK : Int := 88

/-- The `switch (err_no)` statement of `g_io_error_from_errno`
(gioerror.c lines 88–252), with the `#ifdef` guards resolved for Linux;
the `default` branch falls back to `G_IO_ERROR_FAILED`. -/
def g_io_error_from_errno_switch (err_no : Int) : GIOErrorEnum :=
  if err_no = EMLINK then GIOErrorEnum.G_IO_ERROR_TOO_MANY_LINKS
  else if err_no = ENOMSG then GIOErrorEnum.G_IO_ERROR_INVALID_DATA
  else if err_no = ENODATA then GIOErrorEnum.G_IO_ERROR_INVALID_DATA
  else if err_no = EBADMSG then GIOErrorEnum.G_IO_ERROR_INVALID_DATA
  else if err_no = ECANCELED then GIOErrorEnum.G_IO_ERROR_CANCELLED
  else if err_no = ENOTEMPTY then GIOErrorEnum.G_IO_ERROR_NOT_EMPTY
  else if err_no = ENOTSUP then GIOErrorEnum.G_IO_ERROR_NOT_SUPPORTED
  else if err_no = EPROTONOSUPPORT then GIOErrorEnum.G_IO_ERROR_NOT_SUPPORTED
  else if err_no = ESOCKTNOSUPPORT then GIOErrorEnum.G_IO_ERROR_NOT_SUPPORTED
  else if err_no = EPFNOSUPPORT then GIOErrorEnum.G_IO_ERROR_NOT_SUPPORTED
  else if err_no = EAFNOSUPPORT then GIOErrorEnum.G_IO_ERROR_NOT_SUPPORTED
  else if err_no = ETIMEDOUT then GIOErrorEnum.G_IO_ERROR_TIMED_OUT
  else if err_no = EBUSY then GIOErrorEnum.G_IO_ERROR_BUSY
  else if err_no = EWOULDBLOCK then GIOErrorEnum.G_IO_ERROR_WOULD_BLOCK
  else if err_no = EADDRINUSE then GIOErrorEnum.G_IO_ERROR_ADDRESS_IN_USE
  else if err_no = EHOSTUNREACH then GIOErrorEnum.G_IO_ERROR_HOST_UNREACHABLE
  else if err_no = ENETUNREACH then GIOErrorEnum.G_IO_ERROR_NETWORK_UNREACHABLE
  else if err_no = ENETDOWN then GIOErrorEnum.G_IO_ERROR_NETWORK_UNREACHABLE
  else if err_no = ECONNREFUSED then GIOErrorEnum.G_IO_ERROR_CONNECTION_REFUSED
  else if err_no = ECONNRESET then GIOErrorEnum.G_IO_ERROR_CONNECTION_CLOSED
  else if err_no = ENOTCONN then GIOErrorEnum.G_IO_ERROR_NOT_CONNECTED
  else if err_no = EDESTADDRREQ then GIOErrorEnum.G_IO_ERROR_DESTINATION_UNSET
  else if err_no = EMSGSIZE then GIOErrorEnum.G_IO_ERROR_MESSAGE_TOO_LARGE
  else if err_no = ENOTSOCK then GIOErrorEnum.G_IO_ERROR_INVALID_ARGUMENT
  else GIOErrorEnum.G_IO_ERROR_FAILED

/-- `g_io_error_from_errno` (gioerror.c lines 76–253).  The translation
first consults the file-error path: `g_file_error_from_errno` (from
glib/gfileutils.c, which is not in this source tree and is therefore
taken as a parameter) composed with `g_io_error_from_file_error`; if that
yields anything other than `G_IO_ERROR_FAILED` it is returned directly,
and only otherwise is the function's own errno switch consulted. -/
def g_io_error_from_errno (g_file_error_from_errno : Int → Int)
    (err_no : Int) : GIOErrorEnum :=
  let file_error := g_file_error_from_errno err_no
  let io_error := g_io_error_from_file_error file_error
  if io_error ≠ GIOErrorEnum.G_IO_ERROR_FAILED then io_error
  else g_io_error_from_errno_switch err_no

/-- The errno values handled by `g_io_error_from_errno_switch` on Linux. -/
def handledErrnos : List Int :=
  [EMLINK, ENOMSG, ENODATA, EBADMSG, ECANCELED, ENOTEMPTY, ENOTSUP,
   EPROTONOSUPPORT, ESOCKTNOSUPPORT, EPFNOSUPPORT, EAFNOSUPPORT,
   ETIMEDOUT, EBUSY, EWOULDBLOCK, EADDRINUSE, EHOSTUNREACH, ENETUNREACH,
   ENETDOWN, ECONNREFUSED, ECONNRESET, ENOTCONN, EDESTADDRREQ, EMSGSIZE,
   ENOTSOCK]

end GioError

namespace GlibTask

/-! ## Concrete tasks used by the witnesses -/

/-- A freshly constructed Task: no terminal call yet, defaults everywhere. -/
def freshTask : Task := {}

/-- A fresh Task with a completion callback attached. -/
def callbackTask : Task := { callback := true }

/-- A fresh Task with a callback, running in the pool with
return-on-cancel enabled. -/
def rocTask : Task := { callback := true, return_on_cancel := true }

/-- A Task that has stored a pointer result with a registered destructor. -/
def ptrTask : Task :=
  { result := TaskResult.rPointer 7, result_destroy := true, ever_returned := true }

/-- A Task with `check_cancellable` disabled and a stored boolean result. -/
def ncTask : Task :=
  { check_cancellable := false, result := TaskResult.rBoolean true,
    ever_returned := true }

end GlibTask




namespace GlibTask

/-! ## Claims about the task core -/

/-- C1: For every Task, `ever_returned` flips from false to true exactly
once: the first terminal call (any `g_task_return_*`, here quantified over
both results, covering value-then-error and error-then-value; the model's
terminal operation is the same whether invoked synchronously or from an
idle callback) succeeds without a diagnostic, stores its result and sets
`ever_returned`; a second terminal call on the same Task emits a critical
diagnostic and does not replace the stored result, so the one propagation
yields the first result. -/
theorem task_single_completion (t : Task) (r1 r2 : TaskResult)
    (h1 : t.ever_returned = false) (h2 : t.thread_cancelled = false) :
    (g_task_return t r1 false).2 = none ∧
    (g_task_return t r1 false).1.ever_returned = true ∧
    (g_task_return t r1 false).1.result = r1 ∧
    (g_task_return (g_task_return t r1 false).1 r2 false).2 = some LogLevel.critical ∧
    (g_task_return (g_task_return t r1 false).1 r2 false).1.result = r1 ∧
    (g_task_propagate (g_task_return (g_task_return t r1 false).1 r2 false).1 false).2
      = outcomeOf r1 := by
  cases r1 <;> simp [g_task_return, h1, h2, g_task_propagate, outcomeOf]

/-- Witness for C1: a fresh Task, returning a boolean and then an error. -/
theorem task_single_completion_witness :
    (g_task_return freshTask (TaskResult.rBoolean true) false).2 = none ∧
    (g_task_return freshTask (TaskResult.rBoolean true) false).1.ever_returned = true ∧
    (g_task_return freshTask (TaskResult.rBoolean true) false).1.result
      = TaskResult.rBoolean true ∧
    (g_task_return (g_task_return freshTask (TaskResult.rBoolean true) false).1
        (TaskResult.rError ErrorKind.unknown "oh no") false).2 = some LogLevel.critical ∧
    (g_task_return (g_task_return freshTask (TaskResult.rBoolean true) false).1
        (TaskResult.rError ErrorKind.unknown "oh no") false).1.result
      = TaskResult.rBoolean true ∧
    (g_task_propagate
        (g_task_return (g_task_return freshTask (TaskResult.rBoolean true) false).1
          (TaskResult.rError ErrorKind.unknown "oh no") false).1 false).2
      = outcomeOf (TaskResult.rBoolean true) :=
  task_single_completion freshTask (TaskResult.rBoolean true)
    (TaskResult.rError ErrorKind.unknown "oh no") rfl rfl

/-- C2: For every Task with `check_cancellable` true whose cancellable is
cancelled at propagation time (the model's propagation consults only the
token's state at that moment, so cancelling before or after the terminal
call is indistinguishable), propagation returns the cancelled error kind
regardless of the stored result, the registered destructor of a stored
pointer/value result stays in place and still runs (exactly once, at
finalization) rather than leaking or transferring the result; with
`check_cancellable` false the stored result is returned unchanged. -/
theorem task_check_cancellable_override (t : Task) (cancelled : Bool) :
    (t.check_cancellable = true → cancelled = true →
      (g_task_propagate t cancelled).2
        = Propagated.err ErrorKind.cancelled "Task cancelled" ∧
      (g_task_propagate t cancelled).1.result_destroy = t.result_destroy ∧
      (t.result_destroy = true →
        (g_task_finalize (g_task_propagate t cancelled).1).1.destroy_count
          = t.destroy_count + 1)) ∧
    (t.check_cancellable = false →
      (g_task_propagate t cancelled).2 = outcomeOf t.result ∧
      (g_task_propagate t cancelled).1.result = t.result) := by
  constructor
  · intro hc hk
    refine ⟨by simp [g_task_propagate, hc, hk], by simp [g_task_propagate, hc, hk], ?_⟩
    intro hd
    simp [g_task_propagate, hc, hk, g_task_finalize, hd]
  · intro hc
    cases hr : t.result <;> simp [g_task_propagate, hc, outcomeOf, hr]

/-- Witness for C2: a cancelled propagation on a Task holding a pointer
result with a destructor, and an unchecked propagation on a Task with
`check_cancellable` disabled. -/
theorem task_check_cancellable_override_witness :
    (g_task_propagate ptrTask true).2
      = Propagated.err ErrorKind.cancelled "Task cancelled" ∧
    (g_task_propagate ptrTask true).1.result_destroy = ptrTask.result_destroy ∧
    (g_task_finalize (g_task_propagate ptrTask true).1).1.destroy_count
      = ptrTask.destroy_count + 1 ∧
    (g_task_propagate ncTask true).2 = outcomeOf ncTask.result :=
  ⟨((task_check_cancellable_override ptrTask true).1 rfl rfl).1,
   ((task_check_cancellable_override ptrTask true).1 rfl rfl).2.1,
   ((task_check_cancellable_override ptrTask true).1 rfl rfl).2.2 rfl,
   ((task_check_cancellable_override ncTask true).2 rfl).1⟩

/-- C3: For every Task whose terminal operation is invoked before control
returns to the event loop (the model's `loopReturn` covers the
same-iteration case and the outside-any-loop case alike): immediately
after the terminal call and the producer's unref, the callback has not
run, the `completed` notification has not been emitted, the property is
still false and the Task is still alive (the dispatch source holds a
reference); the callback then runs in a subsequent loop iteration, and
the notification follows on the turn after that. -/
theorem task_deferred_callback (t : Task) (r : TaskResult)
    (h1 : t.ever_returned = false) (h2 : t.synchronous = false)
    (h3 : t.callback = true) (h4 : t.callback_invoked = false)
    (h5 : t.completed = false) (h6 : t.completed_notified = false) :
    (sameIterationReturn (LoopState.init t) r).task.callback_invoked = false ∧
    (sameIterationReturn (LoopState.init t) r).task.completed = false ∧
    (sameIterationReturn (LoopState.init t) r).task.completed_notified = false ∧
    taskAlive (sameIterationReturn (LoopState.init t) r) = true ∧
    (loopStep (sameIterationReturn (LoopState.init t) r)).task.callback_invoked = true ∧
    (loopStep (loopStep (sameIterationReturn (LoopState.init t) r))).task.completed_notified
      = true := by
  simp [sameIterationReturn, LoopState.init, loopReturn, loopStep, taskAlive,
    g_task_return, h1, h2, h3, h4, h5, h6]

/-- Witness for C3: a fresh Task with a callback, completed with a boolean
in the creating iteration. -/
theorem task_deferred_callback_witness :
    (sameIterationReturn (LoopState.init callbackTask)
        (TaskResult.rBoolean true)).task.callback_invoked = false ∧
    (sameIterationReturn (LoopState.init callbackTask)
        (TaskResult.rBoolean true)).task.completed = false ∧
    (sameIterationReturn (LoopState.init callbackTask)
        (TaskResult.rBoolean true)).task.completed_notified = false ∧
    taskAlive (sameIterationReturn (LoopState.init callbackTask)
        (TaskResult.rBoolean true)) = true ∧
    (loopStep (sameIterationReturn (LoopState.init callbackTask)
        (TaskResult.rBoolean true))).task.callback_invoked = true ∧
    (loopStep (loopStep (sameIterationReturn (LoopState.init callbackTask)
        (TaskResult.rBoolean true)))).task.completed_notified = true :=
  task_deferred_callback callbackTask (TaskResult.rBoolean true)
    rfl rfl rfl rfl rfl rfl

end GlibTask

namespace GlibTask

/-- C4: For every Task executed via `run_in_thread_sync` with a worker that
makes a terminal `return_int` call: when the call returns, the worker has
produced the terminal result (in this sequential embedding, the blocking
wait is the fact that the worker has run to completion first), the Task's
completion callback was never invoked and no dispatch was scheduled, yet
`completed` is already true and its property-change notification has been
emitted, and the stored result is available via propagation. -/
theorem task_run_in_thread_sync_contract (t : Task) (m : Int)
    (h1 : t.ever_returned = false) (h2 : t.callback_invoked = false) :
    (g_task_run_in_thread_sync t (workerReturnInt m)).ever_returned = true ∧
    (g_task_run_in_thread_sync t (workerReturnInt m)).result = TaskResult.rInt m ∧
    (g_task_run_in_thread_sync t (workerReturnInt m)).callback_invoked = false ∧
    (g_task_run_in_thread_sync t (workerReturnInt m)).dispatch_scheduled = false ∧
    (g_task_run_in_thread_sync t (workerReturnInt m)).completed = true ∧
    (g_task_run_in_thread_sync t (workerReturnInt m)).completed_notified = true ∧
    (g_task_propagate (g_task_run_in_thread_sync t (workerReturnInt m)) false).2
      = Propagated.ok (TaskResult.rInt m) := by
  simp [g_task_run_in_thread_sync, workerReturnInt, g_task_return, g_task_propagate,
    h1, h2]

/-- Witness for C4: a fresh Task with a callback run synchronously with a
worker returning the integer 42. -/
theorem task_run_in_thread_sync_contract_witness :
    (g_task_run_in_thread_sync callbackTask (workerReturnInt 42)).ever_returned = true ∧
    (g_task_run_in_thread_sync callbackTask (workerReturnInt 42)).result
      = TaskResult.rInt 42 ∧
    (g_task_run_in_thread_sync callbackTask (workerReturnInt 42)).callback_invoked
      = false ∧
    (g_task_run_in_thread_sync callbackTask (workerReturnInt 42)).dispatch_scheduled
      = false ∧
    (g_task_run_in_thread_sync callbackTask (workerReturnInt 42)).completed = true ∧
    (g_task_run_in_thread_sync callbackTask (workerReturnInt 42)).completed_notified
      = true ∧
    (g_task_propagate (g_task_run_in_thread_sync callbackTask (workerReturnInt 42))
        false).2 = Propagated.ok (TaskResult.rInt 42) :=
  task_run_in_thread_sync_contract callbackTask 42 rfl rfl

/-- C5: `set_return_on_cancel(b)` returns true iff the transition took
effect.  While the bound cancellable is not cancelled, every call — any
combination of current and requested state, covering true-to-false,
false-to-true and true-to-true — succeeds and returns true; once the
cancellable has been cancelled while return-on-cancel was disabled, every
later call requesting to re-enable it returns false and the
return-on-cancel state remains false (including on repeated attempts). -/
theorem task_set_return_on_cancel_contract :
    (∀ (t : Task) (b : Bool),
      (g_task_set_return_on_cancel t false b).2 = true ∧
      (g_task_set_return_on_cancel t false b).1.return_on_cancel = b) ∧
    (∀ t : Task, t.return_on_cancel = false →
      (g_task_set_return_on_cancel t true true).2 = false ∧
      (g_task_set_return_on_cancel t true true).1.return_on_cancel = false ∧
      (g_task_set_return_on_cancel
        (g_task_set_return_on_cancel t true true).1 true true).2 = false) := by
  constructor
  · intro t b
    simp [g_task_set_return_on_cancel]
  · intro t h
    simp [g_task_set_return_on_cancel, h]

/-- Witness for C5: the uncancelled transitions on a fresh Task and the
refused re-enable on a Task whose token was cancelled while disabled. -/
theorem task_set_return_on_cancel_contract_witness :
    (g_task_set_return_on_cancel freshTask false true).2 = true ∧
    (g_task_set_return_on_cancel freshTask false true).1.return_on_cancel = true ∧
    (g_task_set_return_on_cancel freshTask true true).2 = false ∧
    (g_task_set_return_on_cancel freshTask true true).1.return_on_cancel = false ∧
    (g_task_set_return_on_cancel
      (g_task_set_return_on_cancel freshTask true true).1 true true).2 = false :=
  ⟨(task_set_return_on_cancel_contract.1 freshTask true).1,
   (task_set_return_on_cancel_contract.1 freshTask true).2,
   (task_set_return_on_cancel_contract.2 freshTask rfl).1,
   (task_set_return_on_cancel_contract.2 freshTask rfl).2.1,
   (task_set_return_on_cancel_contract.2 freshTask rfl).2.2⟩

/-- C6: For three Tasks created in the order default-priority,
high-priority, low-priority on the same context, each completed
immediately (their dispatch sources arriving in that order), the
callbacks fire in priority order high, default, low with observed counter
values 1, 2, 3; in general, the dispatch order on one context is sorted
by priority, so a lower-priority callback never fires before a
higher-priority one pending on the same context. -/
theorem task_priority_dispatch_order :
    callbackCounters [⟨1, G_PRIORITY_DEFAULT⟩, ⟨2, G_PRIORITY_HIGH⟩, ⟨3, G_PRIORITY_LOW⟩]
      = [(2, 1), (1, 2), (3, 3)] ∧
    ∀ q : List PendingDispatch, List.Sorted prioRel (dispatchOrder q) :=
  ⟨by decide, fun q => List.sorted_insertionSort prioRel q⟩

/-- C7: When the bound cancellable is cancelled while a Task with
`return_on_cancel` true is running in the worker pool, the cancellation
handler immediately stores a cancelled error and schedules its dispatch,
recording `thread_cancelled`; the worker's own eventual terminal call
after that cancellation is a no-op that leaves the stored cancelled
result unchanged and is dropped without any diagnostic — unlike an
ordinary second terminal call, which is diagnosed at critical level. -/
theorem task_return_on_cancel_cancellation (t : Task) (m : Int)
    (h1 : t.ever_returned = false) (h2 : t.thread_cancelled = false)
    (h3 : t.return_on_cancel = true) (h4 : t.synchronous = false) :
    (task_cancellable_cancelled t).result
      = TaskResult.rError ErrorKind.cancelled "Task cancelled" ∧
    (task_cancellable_cancelled t).ever_returned = true ∧
    (task_cancellable_cancelled t).dispatch_scheduled = true ∧
    (task_cancellable_cancelled t).thread_cancelled = true ∧
    (task_cancellable_cancelled t).return_on_cancel = false ∧
    (g_task_return (task_cancellable_cancelled t) (TaskResult.rInt m) false).2 = none ∧
    (g_task_return (task_cancellable_cancelled t) (TaskResult.rInt m) false).1.result
      = TaskResult.rError ErrorKind.cancelled "Task cancelled" ∧
    (∀ t' : Task, t'.ever_returned = true → t'.thread_cancelled = false →
      (g_task_return t' (TaskResult.rInt m) false).2 = some LogLevel.critical) := by
  refine ⟨?_, ?_, ?_, ?_, ?_, ?_, ?_, ?_⟩ <;>
    simp [task_cancellable_cancelled, g_task_return, h1, h2, h3, h4]
  intro t' he ht
  simp [g_task_return, he, ht]

/-- Witness for C7: a running return-on-cancel Task whose token is
cancelled, followed by the worker's late `return_int(42)`. -/
theorem task_return_on_cancel_cancellation_witness :
    (task_cancellable_cancelled rocTask).result
      = TaskResult.rError ErrorKind.cancelled "Task cancelled" ∧
    (task_cancellable_cancelled rocTask).ever_returned = true ∧
    (task_cancellable_cancelled rocTask).dispatch_scheduled = true ∧
    (task_cancellable_cancelled rocTask).thread_cancelled = true ∧
    (task_cancellable_cancelled rocTask).return_on_cancel = false ∧
    (g_task_return (task_cancellable_cancelled rocTask) (TaskResult.rInt 42) false).2
      = none ∧
    (g_task_return (task_cancellable_cancelled rocTask)
        (TaskResult.rInt 42) false).1.result
      = TaskResult.rError ErrorKind.cancelled "Task cancelled" ∧
    (∀ t' : Task, t'.ever_returned = true → t'.thread_cancelled = false →
      (g_task_return t' (TaskResult.rInt 42) false).2 = some LogLevel.critical) :=
  task_return_on_cancel_cancellation rocTask 42 rfl rfl rfl rfl

end GlibTask

namespace GlibTask

/-- C8: For every Task finalized without any terminal call: with a
callback attached, finalization emits a critical-level diagnostic naming
the source object, source tag and name; without a callback it emits only
a debug-level diagnostic with the same content; in both cases
finalization itself proceeds. -/
theorem task_finalize_without_return_diagnostic (t : Task)
    (h : t.ever_returned = false) :
    (t.callback = true →
      (g_task_finalize t).2 =
        some { level := LogLevel.critical, source_object := t.source_object,
               source_tag := t.source_tag, name := t.name }) ∧
    (t.callback = false →
      (g_task_finalize t).2 =
        some { level := LogLevel.debug, source_object := t.source_object,
               source_tag := t.source_tag, name := t.name }) ∧
    (g_task_finalize t).1.finalized = true := by
  refine ⟨fun hc => ?_, fun hc => ?_, ?_⟩
  · simp [g_task_finalize, h, hc]
  · simp [g_task_finalize, h, hc]
  · cases hd : t.result_destroy <;> simp [g_task_finalize, hd]

/-- Witness for C8: a never-returned Task with a callback (critical) and a
never-returned Task without one (debug). -/
theorem task_finalize_without_return_diagnostic_witness :
    (g_task_finalize callbackTask).2 =
      some { level := LogLevel.critical, source_object := callbackTask.source_object,
             source_tag := callbackTask.source_tag, name := callbackTask.name } ∧
    (g_task_finalize freshTask).2 =
      some { level := LogLevel.debug, source_object := freshTask.source_object,
             source_tag := freshTask.source_tag, name := freshTask.name } ∧
    (g_task_finalize callbackTask).1.finalized = true ∧
    (g_task_finalize freshTask).1.finalized = true :=
  ⟨(task_finalize_without_return_diagnostic callbackTask rfl).1 rfl,
   (task_finalize_without_return_diagnostic freshTask rfl).2.1 rfl,
   (task_finalize_without_return_diagnostic callbackTask rfl).2.2,
   (task_finalize_without_return_diagnostic freshTask rfl).2.2⟩

/-- C9: For every Task completed with `return_pointer(ptr, free_fn)`:
if the result is never propagated, the destructor runs exactly once on
the stored pointer, at finalization (and not before); if propagation was
overridden by a cancelled error, the destructor likewise has not run at
propagation time and runs exactly once at finalization; if the result is
propagated, ownership transfers to the caller — the destructor is
deregistered and does not run at finalization. -/
theorem task_pointer_ownership (t : Task) (p : Nat)
    (h1 : t.ever_returned = false) (h2 : t.destroy_count = 0)
    (h3 : t.check_cancellable = true) :
    ((g_task_return_pointer t p true).1.destroy_count = 0 ∧
     (g_task_finalize (g_task_return_pointer t p true).1).1.destroy_count = 1 ∧
     (g_task_finalize (g_task_return_pointer t p true).1).1.result
       = TaskResult.rPointer p) ∧
    ((g_task_propagate (g_task_return_pointer t p true).1 true).2
       = Propagated.err ErrorKind.cancelled "Task cancelled" ∧
     (g_task_propagate (g_task_return_pointer t p true).1 true).1.destroy_count = 0 ∧
     (g_task_finalize
       (g_task_propagate (g_task_return_pointer t p true).1 true).1).1.destroy_count
       = 1) ∧
    ((g_task_propagate (g_task_return_pointer t p true).1 false).2
       = Propagated.ok (TaskResult.rPointer p) ∧
     (g_task_propagate (g_task_return_pointer t p true).1 false).1.result_destroy
       = false ∧
     (g_task_finalize
       (g_task_propagate (g_task_return_pointer t p true).1 false).1).1.destroy_count
       = 0) := by
  simp [g_task_return_pointer, g_task_return, g_task_propagate, g_task_finalize,
    h1, h2, h3]

/-- Witness for C9: a fresh Task returning pointer 7 with a destructor,
exercised through all three lifetimes. -/
theorem task_pointer_ownership_witness :
    ((g_task_return_pointer freshTask 7 true).1.destroy_count = 0 ∧
     (g_task_finalize (g_task_return_pointer freshTask 7 true).1).1.destroy_count = 1 ∧
     (g_task_finalize (g_task_return_pointer freshTask 7 true).1).1.result
       = TaskResult.rPointer 7) ∧
    ((g_task_propagate (g_task_return_pointer freshTask 7 true).1 true).2
       = Propagated.err ErrorKind.cancelled "Task cancelled" ∧
     (g_task_propagate (g_task_return_pointer freshTask 7 true).1 true).1.destroy_count
       = 0 ∧
     (g_task_finalize
       (g_task_propagate
         (g_task_return_pointer freshTask 7 true).1 true).1).1.destroy_count = 1) ∧
    ((g_task_propagate (g_task_return_pointer freshTask 7 true).1 false).2
       = Propagated.ok (TaskResult.rPointer 7) ∧
     (g_task_propagate
       (g_task_return_pointer freshTask 7 true).1 false).1.result_destroy = false ∧
     (g_task_finalize
       (g_task_propagate
         (g_task_return_pointer freshTask 7 true).1 false).1).1.destroy_count = 0) :=
  task_pointer_ownership freshTask 7 rfl rfl rfl

end GlibTask

namespace GioError

/-- C10: The errno-to-GIOErrorEnum translation is a total deterministic
function (in this embedding every `def` is total and deterministic by
construction, for every integer `err_no` and every file-error translation
`g_file_error_from_errno`, which lives outside this source tree and is
therefore universally quantified).  It defers to the file-error path:
whenever `g_io_error_from_file_error (g_file_error_from_errno err_no)` is
not `G_IO_ERROR_FAILED`, `g_io_error_from_errno` returns exactly that
value, and only otherwise consults its own errno switch; that switch
falls back to `G_IO_ERROR_FAILED` for every unhandled errno, and
`g_io_error_from_file_error` likewise returns `G_IO_ERROR_FAILED` for any
out-of-range GFileError value. -/
theorem io_error_from_errno_translation :
    (∀ (gfe : Int → Int) (err_no : Int),
      g_io_error_from_file_error (gfe err_no) ≠ GIOErrorEnum.G_IO_ERROR_FAILED →
      g_io_error_from_errno gfe err_no = g_io_error_from_file_error (gfe err_no)) ∧
    (∀ (gfe : Int → Int) (err_no : Int),
      g_io_error_from_file_error (gfe err_no) = GIOErrorEnum.G_IO_ERROR_FAILED →
      g_io_error_from_errno gfe err_no = g_io_error_from_errno_switch err_no) ∧
    (∀ err_no : Int, err_no ∉ handledErrnos →
      g_io_error_from_errno_switch err_no = GIOErrorEnum.G_IO_ERROR_FAILED) ∧
    (∀ fe : Int, fe < 0 ∨ 24 < fe →
      g_io_error_from_file_error fe = GIOErrorEnum.G_IO_ERROR_FAILED) := by
  refine ⟨?_, ?_, ?_, ?_⟩
  · intro gfe err_no h
    simp [g_io_error_from_errno, h]
  · intro gfe err_no h
    simp [g_io_error_from_errno, h]
  · intro err_no h
    simp only [handledErrnos, List.mem_cons, List.not_mem_nil, or_false, not_or] at h
    obtain ⟨a1, a2, a3, a4, a5, a6, a7, a8, a9, a10, a11, a12, a13, a14, a15, a16,
      a17, a18, a19, a20, a21, a22, a23, a24⟩ := h
    unfold g_io_error_from_errno_switch
    rw [if_neg a1, if_neg a2, if_neg a3, if_neg a4, if_neg a5, if_neg a6, if_neg a7,
        if_neg a8, if_neg a9, if_neg a10, if_neg a11, if_neg a12, if_neg a13,
        if_neg a14, if_neg a15, if_neg a16, if_neg a17, if_neg a18, if_neg a19,
        if_neg a20, if_neg a21, if_neg a22, if_neg a23, if_neg a24]
  · intro fe h
    unfold g_io_error_from_file_error
    rw [if_neg (show ¬(fe = G_FILE_ERROR_EXIST) by unfold G_FILE_ERROR_EXIST; omega),
        if_neg (show ¬(fe = G_FILE_ERROR_ISDIR) by unfold G_FILE_ERROR_ISDIR; omega),
        if_neg (show ¬(fe = G_FILE_ERROR_ACCES) by unfold G_FILE_ERROR_ACCES; omega),
        if_neg (show ¬(fe = G_FILE_ERROR_NAMETOOLONG) by
          unfold G_FILE_ERROR_NAMETOOLONG; omega),
        if_neg (show ¬(fe = G_FILE_ERROR_NOENT) by unfold G_FILE_ERROR_NOENT; omega),
        if_neg (show ¬(fe = G_FILE_ERROR_NOTDIR) by unfold G_FILE_ERROR_NOTDIR; omega),
        if_neg (show ¬(fe = G_FILE_ERROR_NXIO) by unfold G_FILE_ERROR_NXIO; omega),
        if_neg (show ¬(fe = G_FILE_ERROR_NODEV) by unfold G_FILE_ERROR_NODEV; omega),
        if_neg (show ¬(fe = G_FILE_ERROR_ROFS) by unfold G_FILE_ERROR_ROFS; omega),
        if_neg (show ¬(fe = G_FILE_ERROR_TXTBSY) by unfold G_FILE_ERROR_TXTBSY; omega),
        if_neg (show ¬(fe = G_FILE_ERROR_LOOP) by unfold G_FILE_ERROR_LOOP; omega),
        if_neg (show ¬(fe = G_FILE_ERROR_NOSPC) by unfold G_FILE_ERROR_NOSPC; omega),
        if_neg (show ¬(fe = G_FILE_ERROR_NOMEM) by unfold G_FILE_ERROR_NOMEM; omega),
        if_neg (show ¬(fe = G_FILE_ERROR_MFILE) by unfold G_FILE_ERROR_MFILE; omega),
        if_neg (show ¬(fe = G_FILE_ERROR_NFILE) by unfold G_FILE_ERROR_NFILE; omega),
        if_neg (show ¬(fe = G_FILE_ERROR_INVAL) by unfold G_FILE_ERROR_INVAL; omega),
        if_neg (show ¬(fe = G_FILE_ERROR_PIPE) by unfold G_FILE_ERROR_PIPE; omega),
        if_neg (show ¬(fe = G_FILE_ERROR_AGAIN) by unfold G_FILE_ERROR_AGAIN; omega),
        if_neg (show ¬(fe = G_FILE_ERROR_PERM) by unfold G_FILE_ERROR_PERM; omega),
        if_neg (show ¬(fe = G_FILE_ERROR_NOSYS) by unfold G_FILE_ERROR_NOSYS; omega),
        if_neg (show ¬(fe = G_FILE_ERROR_BADF) by unfold G_FILE_ERROR_BADF; omega),
        if_neg (show ¬(fe = G_FILE_ERROR_FAILED) by unfold G_FILE_ERROR_FAILED; omega),
        if_neg (show ¬(fe = G_FILE_ERROR_FAULT) by unfold G_FILE_ERROR_FAULT; omega),
        if_neg (show ¬(fe = G_FILE_ERROR_INTR) by unfold G_FILE_ERROR_INTR; omega),
        if_neg (show ¬(fe = G_FILE_ERROR_IO) by unfold G_FILE_ERROR_IO; omega)]

/-- Witness for C10: the file-error path winning (ENOENT-style translation
at an arbitrary errno), the fallthrough to the errno switch (EBUSY), an
unhandled errno falling back to failed, and an out-of-range GFileError. -/
theorem io_error_from_errno_translation_witness :
    g_io_error_from_errno (fun _ => G_FILE_ERROR_NOENT) 999
      = g_io_error_from_file_error ((fun _ => G_FILE_ERROR_NOENT) 999) ∧
    g_io_error_from_errno (fun _ => G_FILE_ERROR_FAILED) EBUSY
      = g_io_error_from_errno_switch EBUSY ∧
    g_io_error_from_errno_switch 12345 = GIOErrorEnum.G_IO_ERROR_FAILED ∧
    g_io_error_from_file_error 99 = GIOErrorEnum.G_IO_ERROR_FAILED :=
  ⟨io_error_from_errno_translation.1 (fun _ => G_FILE_ERROR_NOENT) 999 (by decide),
   io_error_from_errno_translation.2.1 (fun _ => G_FILE_ERROR_FAILED) EBUSY (by decide),
   io_error_from_errno_translation.2.2.1 12345 (by decide),
   io_error_from_errno_translation.2.2.2 99 (Or.inr (by decide))⟩

end GioError
